import Mathlib

/-!
Shallow embedding of the `autobase-discovery-cli` package: the server
binary (command `autodiscovery run`) and the client binary
(`autodiscovery-client` with subcommands `list`, `register`, `delete`).

Each CLI handler is modelled as a pure function from its parsed flags and
arguments, together with the outcomes supplied by the external world
(hyperswarm, corestore, the autobase-discovery service and clients), to a
finite trace of observable events: log lines, console output, swarm joins,
RPC calls, close operations and process exit.  Flag values are carried as
`Option String` (`none` when the flag is absent) and the JavaScript
truthiness tests and `parseInt` coercions of the source are reproduced
explicitly.
-/

namespace AutodiscoveryCLI

/-- JavaScript number restricted to the integral results relevant here:
`none` stands for `NaN` (the result of `parseInt` on a non-numeric
string), `some n` for the integer `n`. -/
def JSNum := Option Int

instance : DecidableEq JSNum := inferInstanceAs (DecidableEq (Option Int))

/-- JavaScript truthiness of the value held by a possibly absent string
flag: `undefined` (here `none`) and the empty string are falsy, every
other string is truthy. -/
def truthy : Option String → Bool
  | none => false
  | some s => !(s == "")

/-- The JavaScript idiom `v || d` for a possibly absent string `v` and a
string default `d`. -/
def jsOr (v : Option String) (d : String) : String :=
  match v with
  | none => d
  | some s => if s == "" then d else s

/-- Leading decimal-digit prefix of a character list, as a number;
`none` when the list does not start with a digit. -/
def parseDigits (cs : List Char) : Option Nat :=
  let ds := cs.takeWhile Char.isDigit
  if ds.isEmpty then none
  else some (ds.foldl (fun acc c => acc * 10 + (c.toNat - 48)) 0)

/-- JavaScript `parseInt(s)` (radix 10, no hex prefix): skip leading
whitespace, accept an optional sign, read the leading run of decimal
digits; `NaN` (`none`) when no digit is found. -/
def parseIntJS (s : String) : JSNum :=
  let cs := s.data.dropWhile (fun c => c == ' ' || c == '\t' || c == '\n' || c == '\r')
  match cs with
  | '-' :: rest => (parseDigits rest).map (fun n => -(n : Int))
  | '+' :: rest => (parseDigits rest).map (fun n => (n : Int))
  | _ => (parseDigits cs).map (fun n => (n : Int))

/-- JavaScript `s.slice(0, n)` on a string. -/
def sliceTo (s : String) (n : Nat) : String :=
  String.mk (s.data.take n)

/-! ## Server binary: `autodiscovery run` -/

/-- Parsed flags of the `run` command (absent flag = `none`). -/
structure RunFlags where
  storage : Option String := none
  scraperPublicKey : Option String := none
  scraperSecret : Option String := none
  scraperAlias : Option String := none
  bootstrap : Option String := none
  rateLimitCapacity : Option String := none
  rateLimitIntervalMs : Option String := none
  concurrentLimitCapacity : Option String := none
deriving DecidableEq

/-- Values produced by the external components during a run: the swarm
keypair, the keys exposed by the `Autodiscovery` service and the
registry version, all in their normalized printable form. -/
structure RunEnv where
  swarmPublicKey : String
  baseDiscoveryKey : String
  dbDiscoveryKey : String
  baseKey : String
  dbKey : String
  serverPublicKey : String
  allowedPublicKey : String
  dbVersion : Nat
deriving DecidableEq

/-- Options passed to `swarm.join`. -/
structure JoinOpts where
  client : Bool
  server : Bool
deriving DecidableEq

/-- Rate/concurrency configuration handed to the default protomux-rpc
middleware. -/
structure MiddlewareConfig where
  rateLimitCapacity : JSNum
  rateLimitIntervalMs : JSNum
  concurrentLimitCapacity : JSNum
deriving DecidableEq

/-- One ternary of the form `flags.x ? parseInt(flags.x) : d`. -/
def flagNumOr (d : Int) (v : Option String) : JSNum :=
  if truthy v then parseIntJS (v.getD "") else some d

/-- The admission-middleware configuration computed by `runCmd`
(source lines 90-96 and 146-150). -/
def middlewareConfig (fl : RunFlags) : MiddlewareConfig where
  rateLimitCapacity := flagNumOr 10 fl.rateLimitCapacity
  rateLimitIntervalMs := flagNumOr 100 fl.rateLimitIntervalMs
  concurrentLimitCapacity := flagNumOr 16 fl.concurrentLimitCapacity

/-- The Prometheus alias computation of the instrumentation block
(source lines 120-125): an explicit truthy alias longer than 99
characters throws; otherwise a falsy alias is replaced by the default
`autodiscovery-<swarm key>` truncated with `.slice(0, 99)`. -/
def computeAlias (flagAlias : Option String) (swarmKey : String) :
    Except String String :=
  if truthy flagAlias && decide ((flagAlias.getD "").length > 99) then
    Except.error "The Prometheus alias must have length less than 100"
  else if !(truthy flagAlias) then
    Except.ok (sliceTo ("autodiscovery-" ++ swarmKey) 99)
  else
    Except.ok (flagAlias.getD "")

/-- Observable events of the server run. -/
inductive Event where
  | logInfo (msg : String)
  | logWarn (msg : String)
  | routerUse (cfg : MiddlewareConfig)
  | serviceReady
  | join (topic : String) (opts : Option JoinOpts)
  | thrown (msg : String)
deriving DecidableEq

/-- Tail of a successful run, after the instrumentation block: middleware
installation, service start, the two swarm joins (source lines 179-180)
and the startup log lines (source lines 182-186). -/
def runCmdMain (fl : RunFlags) (env : RunEnv) : List Event :=
  [Event.routerUse (middlewareConfig fl),
   Event.logInfo "Starting autodiscovery service",
   Event.serviceReady,
   Event.join env.baseDiscoveryKey none,
   Event.join env.dbDiscoveryKey (some { client := true, server := true }),
   Event.logInfo ("DB version: " ++ toString env.dbVersion),
   Event.logInfo ("Autobase key: " ++ env.baseKey),
   Event.logInfo ("Name-service database key: " ++ env.dbKey),
   Event.logInfo ("RPC server public key: " ++ env.serverPublicKey),
   Event.logInfo ("Accepting RPC connections from public key " ++ env.allowedPublicKey)]

/-- Full event trace of the `run` handler.  A throw in the
instrumentation block ends the trace with a `thrown` event: nothing after
it executes. -/
def runCmdTrace (fl : RunFlags) (env : RunEnv) : List Event :=
  (if truthy fl.bootstrap then
    [Event.logWarn "Using non-standard bootstrap"] else []) ++
  [Event.logInfo ("Using storage: " ++ jsOr fl.storage "autodiscovery")] ++
  (if truthy fl.scraperPublicKey then
    Event.logInfo "Setting up instrumentation" ::
    (match computeAlias fl.scraperAlias env.swarmPublicKey with
     | Except.error msg => [Event.thrown msg]
     | Except.ok _ => runCmdMain fl env)
   else runCmdMain fl env)

/-- The subsequence of `swarm.join` calls in a trace, in order. -/
def joinEvents (tr : List Event) : List (String × Option JoinOpts) :=
  tr.filterMap (fun e => match e with
    | Event.join t o => some (t, o)
    | _ => none)

/-! ## Client binary: `autodiscovery-client list` -/

/-- A JavaScript value as passed for the `limit` option: `flags.limit`
is a string when the flag is given, and the literal number `10`
otherwise. -/
inductive JSVal where
  | str (s : String)
  | num (n : Int)
deriving DecidableEq

deriving instance DecidableEq for Except

/-- The expression `flags.limit || 10` of the lookup handler. -/
def limitVal (limit : Option String) : JSVal :=
  match limit with
  | none => JSVal.num 10
  | some s => if s == "" then JSVal.num 10 else JSVal.str s

/-- Parsed flags of the `list` command. -/
structure LookupFlags where
  storage : Option String := none
  limit : Option String := none
  debug : Bool := false
deriving DecidableEq

/-- Outcomes supplied by the external world during a `list` run: whether
`ensureDbLoaded` resolves or rejects (with the error message), the
replica's core length, and the normalized public keys yielded by
`client.list`. -/
structure LookupEnv where
  loadResult : Except String Unit
  dbVersion : Nat
  entries : List String
deriving DecidableEq

/-- Observable events of a client command. -/
inductive CEvent where
  | printOut (msg : String)
  | printErr (msg : String)
  | clientReady
  | loadedOk
  | listCall (service : String) (limit : JSVal)
  | closeClient
  | destroySwarm
  | closeStore
  | exit (code : Nat)
deriving DecidableEq

/-- Event trace of the `list` handler (source lines 21-64 of
`client-bin.js`).  `process.exit(1)` ends the trace at once; a run that
falls off the end of the handler lets the process exit with code 0. -/
def lookupTrace (fl : LookupFlags) (service : String) (env : LookupEnv) :
    List CEvent :=
  [CEvent.clientReady,
   CEvent.printOut "Loading database..."] ++
  match env.loadResult with
  | Except.error msg => [CEvent.printErr msg, CEvent.exit 1]
  | Except.ok _ =>
    [CEvent.loadedOk,
     CEvent.printOut ("Autobase Discovery database version: " ++ toString env.dbVersion),
     CEvent.printOut ("Available instances for service '" ++ service ++ "':"),
     CEvent.listCall service (limitVal fl.limit)] ++
    env.entries.map (fun k => CEvent.printOut ("  - " ++ k)) ++
    (if env.entries.isEmpty then
      [CEvent.printOut "None (did not find any instances)"] else []) ++
    [CEvent.closeClient, CEvent.destroySwarm, CEvent.closeStore,
     CEvent.exit 0]

/-! ## Client binary: `autodiscovery-client delete` and `register` -/

/-- Modelled from the spec: the response behaviour of the
autobase-discovery RPC mutation clients (`DeleteClient.deleteService`,
`RegisterClient.putService`), whose implementation lives in the external
`autobase-discovery` package.  Per the spec, a request made with a valid
capability seed receives a response, while one made with an invalid seed
hangs forever and no error of any kind is produced: `none` means the
awaited promise never settles. -/
def rpcMutationOutcome (seedValid : Bool) : Option Unit :=
  if seedValid then some () else none

/-- Observable events of a mutation command. -/
inductive MEvent where
  | printOut (msg : String)
  | printErr (msg : String)
  | sessionOpen
  | commandIssued (name : String)
  | responseReceived
  | exitOk
deriving DecidableEq

/-- Event trace of the `delete` handler (source lines 80-103 of
`client-bin.js`).  The keys are already in their normalized printable
form; `seedValid` says whether the access seed matches the server's
configured capability.  When the request hangs the trace simply never
extends past the issued command. -/
def deleteCmdTrace (rpcServerKey derivedPublicKey targetKey : String)
    (seedValid : Bool) : List MEvent :=
  [MEvent.printOut "Opening connection... (press ctrl-c to cancel)",
   MEvent.sessionOpen,
   MEvent.printOut ("Sending delete request to RPC server " ++ rpcServerKey ++
     ", using public key " ++ derivedPublicKey ++ "..."),
   MEvent.commandIssued "delete"] ++
  match rpcMutationOutcome seedValid with
  | some _ =>
    [MEvent.responseReceived,
     MEvent.printOut ("Successfully requested to delete service " ++ targetKey),
     MEvent.exitOk]
  | none => []

/-- Event trace of the `register` handler (source lines 121-146 of
`client-bin.js`). -/
def registerCmdTrace (rpcServerKey derivedPublicKey targetKey : String)
    (seedValid : Bool) : List MEvent :=
  [MEvent.printOut "Opening connection... (press ctrl-c to cancel)",
   MEvent.sessionOpen,
   MEvent.printOut ("Sending register request to RPC server " ++ rpcServerKey ++
     ", using public key " ++ derivedPublicKey ++ "..."),
   MEvent.commandIssued "register"] ++
  match rpcMutationOutcome seedValid with
  | some _ =>
    [MEvent.responseReceived,
     MEvent.printOut ("Successfully requested to register service " ++ targetKey),
     MEvent.exitOk]
  | none => []

/-- Error output of a mutation-command trace. -/
def errOutputs : List MEvent → List String
  | [] => []
  | MEvent.printErr m :: rest => m :: errOutputs rest
  | _ :: rest => errOutputs rest

/-- Number of events in a mutation-command trace satisfying `p`. -/
def countM (p : MEvent → Bool) (tr : List MEvent) : Nat :=
  tr.countP p

/-- Recognizer for the session-opening event (`await client.ready()`). -/
def isSessionOpen : MEvent → Bool
  | MEvent.sessionOpen => true
  | _ => false

/-- Recognizer for a command-issuing event. -/
def isCommandIssued : MEvent → Bool
  | MEvent.commandIssued _ => true
  | _ => false

/-- Recognizer for a response-arrival event. -/
def isResponse : MEvent → Bool
  | MEvent.responseReceived => true
  | _ => false

/-! ## Theorems -/

/-- `s.slice(0, n)` yields at most `n` characters. -/
theorem sliceTo_length_le (s : String) (n : Nat) : (sliceTo s n).length ≤ n := by
  show (s.data.take n).length ≤ n
  rw [List.length_take]
  exact Nat.min_le_left _ _

/-- C1: On server startup, the run command joins exactly two swarm
discovery topics independently: the autobase replication topic of the
registry with the library-default options, and the name-service database
topic with explicit hybrid client-and-server mode (both advertising and
discovering). -/
theorem run_joins_exactly_two_topics (fl : RunFlags) (env : RunEnv)
    (hs : Event.serviceReady ∈ runCmdTrace fl env) :
    joinEvents (runCmdTrace fl env) =
      [(env.baseDiscoveryKey, none),
       (env.dbDiscoveryKey, some { client := true, server := true })] := by
  unfold runCmdTrace at hs ⊢
  by_cases hb : truthy fl.bootstrap <;>
  by_cases hp : truthy fl.scraperPublicKey <;>
  cases hca : computeAlias fl.scraperAlias env.swarmPublicKey <;>
  simp [hb, hp, hca, runCmdMain, joinEvents] at hs ⊢

/-- Witness for C1 at a concrete flag set and environment. -/
theorem run_joins_exactly_two_topics_witness :
    Event.serviceReady ∈
      runCmdTrace {} ⟨"swk", "basedk", "dbdk", "bk", "dbk", "spk", "apk", 0⟩ ∧
    joinEvents (runCmdTrace {} ⟨"swk", "basedk", "dbdk", "bk", "dbk", "spk", "apk", 0⟩) =
      [("basedk", none), ("dbdk", some { client := true, server := true })] :=
  ⟨by decide,
   run_joins_exactly_two_topics {} ⟨"swk", "basedk", "dbdk", "bk", "dbk", "spk", "apk", 0⟩
     (by decide)⟩

/-- C2: For every invocation of the server run command, the admission
middleware is configured (via `router.use`) with the computed rate-limit
and concurrency settings: bucket capacity 10, refill interval 100
milliseconds and concurrency capacity 16 when the respective flags are
absent, and the `parseInt` of the flag's value when a flag is present
(with a non-empty value, the form a flag given on the command line
takes). -/
theorem run_admission_middleware_config (fl : RunFlags) (env : RunEnv) :
    (Event.serviceReady ∈ runCmdTrace fl env →
      Event.routerUse (middlewareConfig fl) ∈ runCmdTrace fl env) ∧
    (fl.rateLimitCapacity = none →
      (middlewareConfig fl).rateLimitCapacity = some 10) ∧
    (fl.rateLimitIntervalMs = none →
      (middlewareConfig fl).rateLimitIntervalMs = some 100) ∧
    (fl.concurrentLimitCapacity = none →
      (middlewareConfig fl).concurrentLimitCapacity = some 16) ∧
    (∀ s, s ≠ "" → fl.rateLimitCapacity = some s →
      (middlewareConfig fl).rateLimitCapacity = parseIntJS s) ∧
    (∀ s, s ≠ "" → fl.rateLimitIntervalMs = some s →
      (middlewareConfig fl).rateLimitIntervalMs = parseIntJS s) ∧
    (∀ s, s ≠ "" → fl.concurrentLimitCapacity = some s →
      (middlewareConfig fl).concurrentLimitCapacity = parseIntJS s) := by
  refine ⟨?_, ?_, ?_, ?_, ?_, ?_, ?_⟩
  · intro hs
    unfold runCmdTrace at hs ⊢
    by_cases hb : truthy fl.bootstrap <;>
    by_cases hp : truthy fl.scraperPublicKey <;>
    cases hca : computeAlias fl.scraperAlias env.swarmPublicKey <;>
    simp [hb, hp, hca, runCmdMain] at hs ⊢
  all_goals
    first
    | (intro h; simp [middlewareConfig, flagNumOr, truthy, h])
    | (intro s hne h; simp [middlewareConfig, flagNumOr, truthy, h, hne])

/-- Witness for C2: the defaults at an empty flag set, and the parsed
values when the three flags are given. -/
theorem run_admission_middleware_config_witness :
    ((middlewareConfig {}).rateLimitCapacity = some 10 ∧
     (middlewareConfig {}).rateLimitIntervalMs = some 100 ∧
     (middlewareConfig {}).concurrentLimitCapacity = some 16) ∧
    ((middlewareConfig { rateLimitCapacity := some "7",
                         rateLimitIntervalMs := some "250",
                         concurrentLimitCapacity := some "32" }).rateLimitCapacity =
       parseIntJS "7" ∧
     (middlewareConfig { rateLimitCapacity := some "7",
                         rateLimitIntervalMs := some "250",
                         concurrentLimitCapacity := some "32" }).rateLimitIntervalMs =
       parseIntJS "250" ∧
     (middlewareConfig { rateLimitCapacity := some "7",
                         rateLimitIntervalMs := some "250",
                         concurrentLimitCapacity := some "32" }).concurrentLimitCapacity =
       parseIntJS "32") ∧
    Event.routerUse (middlewareConfig {}) ∈
      runCmdTrace {} ⟨"swk", "basedk", "dbdk", "bk", "dbk", "spk", "apk", 0⟩ :=
  ⟨⟨(run_admission_middleware_config {}
       ⟨"swk", "basedk", "dbdk", "bk", "dbk", "spk", "apk", 0⟩).2.1 rfl,
    (run_admission_middleware_config {}
       ⟨"swk", "basedk", "dbdk", "bk", "dbk", "spk", "apk", 0⟩).2.2.1 rfl,
    (run_admission_middleware_config {}
       ⟨"swk", "basedk", "dbdk", "bk", "dbk", "spk", "apk", 0⟩).2.2.2.1 rfl⟩,
   ⟨(run_admission_middleware_config
       { rateLimitCapacity := some "7", rateLimitIntervalMs := some "250",
         concurrentLimitCapacity := some "32" }
       ⟨"swk", "basedk", "dbdk", "bk", "dbk", "spk", "apk", 0⟩).2.2.2.2.1
       "7" (by decide) rfl,
    (run_admission_middleware_config
       { rateLimitCapacity := some "7", rateLimitIntervalMs := some "250",
         concurrentLimitCapacity := some "32" }
       ⟨"swk", "basedk", "dbdk", "bk", "dbk", "spk", "apk", 0⟩).2.2.2.2.2.1
       "250" (by decide) rfl,
    (run_admission_middleware_config
       { rateLimitCapacity := some "7", rateLimitIntervalMs := some "250",
         concurrentLimitCapacity := some "32" }
       ⟨"swk", "basedk", "dbdk", "bk", "dbk", "spk", "apk", 0⟩).2.2.2.2.2.2
       "32" (by decide) rfl⟩,
   (run_admission_middleware_config {}
      ⟨"swk", "basedk", "dbdk", "bk", "dbk", "spk", "apk", 0⟩).1 (by decide)⟩

/-- C5: On every successful startup (one in which the service became
ready), the run command logs the RPC server's public key, the
name-service database (registry) key, and the registry's current
version. -/
theorem run_logs_keys_and_version (fl : RunFlags) (env : RunEnv)
    (hs : Event.serviceReady ∈ runCmdTrace fl env) :
    Event.logInfo ("RPC server public key: " ++ env.serverPublicKey) ∈
      runCmdTrace fl env ∧
    Event.logInfo ("Name-service database key: " ++ env.dbKey) ∈
      runCmdTrace fl env ∧
    Event.logInfo ("DB version: " ++ toString env.dbVersion) ∈
      runCmdTrace fl env := by
  unfold runCmdTrace at hs ⊢
  by_cases hb : truthy fl.bootstrap <;>
  by_cases hp : truthy fl.scraperPublicKey <;>
  cases hca : computeAlias fl.scraperAlias env.swarmPublicKey <;>
  simp [hb, hp, hca, runCmdMain] at hs ⊢

/-- Witness for C5 at a concrete flag set and environment. -/
theorem run_logs_keys_and_version_witness :
    Event.serviceReady ∈
      runCmdTrace {} ⟨"swk", "basedk", "dbdk", "bk", "dbk", "spk", "apk", 3⟩ ∧
    Event.logInfo ("RPC server public key: " ++ "spk") ∈
      runCmdTrace {} ⟨"swk", "basedk", "dbdk", "bk", "dbk", "spk", "apk", 3⟩ :=
  ⟨by decide,
   (run_logs_keys_and_version {}
      ⟨"swk", "basedk", "dbdk", "bk", "dbk", "spk", "apk", 3⟩ (by decide)).1⟩

/-- C10: With a metrics scraper configured, an explicit scraper alias
longer than 99 characters makes the run command throw before the service
starts (the thrown error appears in the trace and the service never
becomes ready), while a falsy (absent or empty) alias is replaced by the
derived default truncated to at most 99 characters, so the length check
never fires for defaulted aliases. -/
theorem run_scraper_alias_length (fl : RunFlags) (env : RunEnv) (s : String)
    (hal : fl.scraperAlias = some s) (hlen : s.length > 99)
    (hp : truthy fl.scraperPublicKey = true) :
    Event.thrown "The Prometheus alias must have length less than 100" ∈
      runCmdTrace fl env ∧
    Event.serviceReady ∉ runCmdTrace fl env ∧
    (∀ v k, truthy v = false →
      ∃ a, computeAlias v k = Except.ok a ∧ a.length ≤ 99) := by
  have hne : s ≠ "" := by
    intro h
    rw [h] at hlen
    simp at hlen
  have hca : computeAlias fl.scraperAlias env.swarmPublicKey =
      Except.error "The Prometheus alias must have length less than 100" := by
    simp [computeAlias, hal, truthy, hne, hlen]
  refine ⟨?_, ?_, ?_⟩
  · unfold runCmdTrace
    by_cases hb : truthy fl.bootstrap <;> simp [hb, hp, hca]
  · unfold runCmdTrace
    by_cases hb : truthy fl.bootstrap <;> simp [hb, hp, hca]
  · intro v k hv
    refine ⟨sliceTo ("autodiscovery-" ++ k) 99, ?_, ?_⟩
    · simp [computeAlias, hv]
    · exact sliceTo_length_le ("autodiscovery-" ++ k) 99

/-- Witness for C10: a 100-character alias with the scraper flag on, at a
concrete environment. -/
theorem run_scraper_alias_length_witness :
    Event.thrown "The Prometheus alias must have length less than 100" ∈
      runCmdTrace
        { scraperPublicKey := some "scrpk",
          scraperAlias := some (String.mk (List.replicate 100 'a')) }
        ⟨"swk", "basedk", "dbdk", "bk", "dbk", "spk", "apk", 0⟩ :=
  (run_scraper_alias_length
    { scraperPublicKey := some "scrpk",
      scraperAlias := some (String.mk (List.replicate 100 'a')) }
    ⟨"swk", "basedk", "dbdk", "bk", "dbk", "spk", "apk", 0⟩
    (String.mk (List.replicate 100 'a')) rfl (by decide) (by decide)).1

/-- C3: For every invocation of the client list command, when
`ensureDbLoaded` rejects the handler prints the error message and calls
`process.exit(1)`, ending the run there; when it resolves, the run ends
with exit code 0 and never exits with code 1. -/
theorem lookup_exit_codes (fl : LookupFlags) (service : String)
    (env : LookupEnv) :
    (∀ msg, env.loadResult = Except.error msg →
      lookupTrace fl service env =
        [CEvent.clientReady,
         CEvent.printOut "Loading database...",
         CEvent.printErr msg,
         CEvent.exit 1]) ∧
    (env.loadResult = Except.ok () →
      CEvent.exit 0 ∈ lookupTrace fl service env ∧
      CEvent.exit 1 ∉ lookupTrace fl service env) := by
  constructor
  · intro msg hl
    simp [lookupTrace, hl]
  · intro hl
    constructor
    · simp [lookupTrace, hl]
    · simp [lookupTrace, hl]

/-- Witness for C3: a failing load and a succeeding load at concrete
inputs. -/
theorem lookup_exit_codes_witness :
    lookupTrace {} "svc" ⟨Except.error "oops", 0, []⟩ =
      [CEvent.clientReady,
       CEvent.printOut "Loading database...",
       CEvent.printErr "oops",
       CEvent.exit 1] ∧
    CEvent.exit 0 ∈ lookupTrace {} "svc" ⟨Except.ok (), 0, ["k1"]⟩ :=
  ⟨(lookup_exit_codes {} "svc" ⟨Except.error "oops", 0, []⟩).1 "oops" rfl,
   ((lookup_exit_codes {} "svc" ⟨Except.ok (), 0, ["k1"]⟩).2 rfl).1⟩

/-- C6: In every execution of the client list command, a `list` call can
only occur strictly after the event marking the successful completion of
`ensureDbLoaded`: whenever position `j` of the trace is a `listCall`,
some earlier position holds `loadedOk`. -/
theorem lookup_load_before_list (fl : LookupFlags) (service : String)
    (env : LookupEnv) (j : Nat) (s : String) (v : JSVal)
    (hj : (lookupTrace fl service env).get? j = some (CEvent.listCall s v)) :
    ∃ i, i < j ∧
      (lookupTrace fl service env).get? i = some CEvent.loadedOk := by
  cases hl : env.loadResult with
  | error msg =>
    exfalso
    simp only [lookupTrace, hl, List.cons_append, List.nil_append] at hj
    rcases j with _ | _ | _ | _ | j <;> simp at hj
  | ok u =>
    cases u
    have h2 : (lookupTrace fl service env).get? 2 = some CEvent.loadedOk := by
      simp [lookupTrace, hl]
    refine ⟨2, ?_, h2⟩
    by_contra hle
    push_neg at hle
    interval_cases j <;> simp [lookupTrace, hl] at hj

/-- Witness for C6 at a concrete trace: the `listCall` sits at position 5
and `loadedOk` at an earlier position. -/
theorem lookup_load_before_list_witness :
    (lookupTrace {} "svc" ⟨Except.ok (), 0, []⟩).get? 5 =
      some (CEvent.listCall "svc" (JSVal.num 10)) ∧
    ∃ i, i < 5 ∧
      (lookupTrace {} "svc" ⟨Except.ok (), 0, []⟩).get? i =
        some CEvent.loadedOk :=
  ⟨by decide,
   lookup_load_before_list {} "svc" ⟨Except.ok (), 0, []⟩ 5 "svc"
     (JSVal.num 10) (by decide)⟩

/-- C8: In the client list command the limit defaults to 10: with the
`--limit` flag absent the `list` call carries the number 10, and with a
(non-empty) flag value the given value is carried instead. -/
theorem lookup_limit_default (fl : LookupFlags) (service : String)
    (env : LookupEnv) :
    (fl.limit = none → limitVal fl.limit = JSVal.num 10) ∧
    (∀ s, s ≠ "" → fl.limit = some s → limitVal fl.limit = JSVal.str s) ∧
    (env.loadResult = Except.ok () →
      CEvent.listCall service (limitVal fl.limit) ∈
        lookupTrace fl service env) := by
  refine ⟨?_, ?_, ?_⟩
  · intro h
    simp [limitVal, h]
  · intro s hne h
    simp [limitVal, h, hne]
  · intro hl
    simp [lookupTrace, hl]

/-- Witness for C8: the defaulted limit and an explicit limit, at a
concrete trace. -/
theorem lookup_limit_default_witness :
    limitVal none = JSVal.num 10 ∧
    limitVal (some "25") = JSVal.str "25" ∧
    CEvent.listCall "svc" (limitVal none) ∈
      lookupTrace {} "svc" ⟨Except.ok (), 0, []⟩ :=
  ⟨(lookup_limit_default {} "svc" ⟨Except.ok (), 0, []⟩).1 rfl,
   (lookup_limit_default { limit := some "25" } "svc"
      ⟨Except.ok (), 0, []⟩).2.1 "25" (by decide) rfl,
   (lookup_limit_default {} "svc" ⟨Except.ok (), 0, []⟩).2.2 rfl⟩

/-- C9: When the lookup yields no entries, the client prints the line
`None (did not find any instances)` and still closes the client, destroys
the swarm and closes the store before exiting with code 0: the full trace
is spelled out. -/
theorem lookup_no_entries (fl : LookupFlags) (service : String)
    (env : LookupEnv) (hl : env.loadResult = Except.ok ())
    (he : env.entries = []) :
    lookupTrace fl service env =
      [CEvent.clientReady,
       CEvent.printOut "Loading database...",
       CEvent.loadedOk,
       CEvent.printOut ("Autobase Discovery database version: " ++
         toString env.dbVersion),
       CEvent.printOut ("Available instances for service '" ++ service ++ "':"),
       CEvent.listCall service (limitVal fl.limit),
       CEvent.printOut "None (did not find any instances)",
       CEvent.closeClient,
       CEvent.destroySwarm,
       CEvent.closeStore,
       CEvent.exit 0] := by
  simp [lookupTrace, hl, he]

/-- Witness for C9 at a concrete empty lookup. -/
theorem lookup_no_entries_witness :
    lookupTrace {} "svc" ⟨Except.ok (), 2, []⟩ =
      [CEvent.clientReady,
       CEvent.printOut "Loading database...",
       CEvent.loadedOk,
       CEvent.printOut "Autobase Discovery database version: 2",
       CEvent.printOut "Available instances for service 'svc':",
       CEvent.listCall "svc" (limitVal none),
       CEvent.printOut "None (did not find any instances)",
       CEvent.closeClient,
       CEvent.destroySwarm,
       CEvent.closeStore,
       CEvent.exit 0] :=
  lookup_no_entries {} "svc" ⟨Except.ok (), 2, []⟩ rfl rfl

/-- C7: Each register or delete invocation opens exactly one
authenticated session, issues exactly one command, and receives at most
one response (exactly one when the request completes at all) — in
particular nothing is ever retried. -/
theorem mutation_single_session_single_command (rk dk tk : String)
    (valid : Bool) :
    (countM isSessionOpen (deleteCmdTrace rk dk tk valid) = 1 ∧
     countM isCommandIssued (deleteCmdTrace rk dk tk valid) = 1 ∧
     countM isResponse (deleteCmdTrace rk dk tk valid) ≤ 1) ∧
    (countM isSessionOpen (registerCmdTrace rk dk tk valid) = 1 ∧
     countM isCommandIssued (registerCmdTrace rk dk tk valid) = 1 ∧
     countM isResponse (registerCmdTrace rk dk tk valid) ≤ 1) := by
  cases valid <;>
    simp [deleteCmdTrace, registerCmdTrace, rpcMutationOutcome, countM,
      isSessionOpen, isCommandIssued, isResponse, List.countP_cons]

/-- C4: With an invalid capability seed a register or delete run produces
no error output and never completes (no response, no exit), and every
line it does print is also printed, in the same order, by the
corresponding valid-seed run: the hang is the only difference, so the
output does not betray seed validity. -/
theorem mutation_invalid_seed_silent (rk dk tk : String) :
    (errOutputs (deleteCmdTrace rk dk tk false) = [] ∧
     errOutputs (deleteCmdTrace rk dk tk true) = [] ∧
     MEvent.responseReceived ∉ deleteCmdTrace rk dk tk false ∧
     MEvent.exitOk ∉ deleteCmdTrace rk dk tk false ∧
     ∃ rest, deleteCmdTrace rk dk tk true =
       deleteCmdTrace rk dk tk false ++ rest) ∧
    (errOutputs (registerCmdTrace rk dk tk false) = [] ∧
     errOutputs (registerCmdTrace rk dk tk true) = [] ∧
     MEvent.responseReceived ∉ registerCmdTrace rk dk tk false ∧
     MEvent.exitOk ∉ registerCmdTrace rk dk tk false ∧
     ∃ rest, registerCmdTrace rk dk tk true =
       registerCmdTrace rk dk tk false ++ rest) := by
  refine ⟨⟨?_, ?_, ?_, ?_, ?_⟩, ⟨?_, ?_, ?_, ?_, ?_⟩⟩
  · simp [deleteCmdTrace, rpcMutationOutcome, errOutputs]
  · simp [deleteCmdTrace, rpcMutationOutcome, errOutputs]
  · simp [deleteCmdTrace, rpcMutationOutcome]
  · simp [deleteCmdTrace, rpcMutationOutcome]
  · exact ⟨[MEvent.responseReceived,
      MEvent.printOut ("Successfully requested to delete service " ++ tk),
      MEvent.exitOk], by simp [deleteCmdTrace, rpcMutationOutcome]⟩
  · simp [registerCmdTrace, rpcMutationOutcome, errOutputs]
  · simp [registerCmdTrace, rpcMutationOutcome, errOutputs]
  · simp [registerCmdTrace, rpcMutationOutcome]
  · simp [registerCmdTrace, rpcMutationOutcome]
  · exact ⟨[MEvent.responseReceived,
      MEvent.printOut ("Successfully requested to register service " ++ tk),
      MEvent.exitOk], by simp [registerCmdTrace, rpcMutationOutcome]⟩

end AutodiscoveryCLI
